import Mathlib

/-!
Shallow embedding of `src/drivingTimeRadiusCalculator.py`
(class `DrivingTimeRadiusCalculator`).

Modelling conventions:
* pandas/geopandas row collections become `List`s of structures; boolean-mask
  row filtering becomes `List.filter` (row order preserved, new frame built);
* Python `float` durations and coordinates become `ℚ` (the numeric values the
  claims touch are exact decimals);
* Python `int()` truncation toward zero becomes `pyTrunc`;
* Python exceptions become `Except PyErr`: `IndexError` on out-of-range
  subscripts, `TypeError` on subscripting `None`, and — because
  `Series.max()` and Series subscripting produce numpy float64 scalars,
  whose division by zero silently yields NaN or a signed infinity instead
  of raising — `ValueError` on `int(NaN)` and `OverflowError` on
  `int(infinity)`; `ZeroDivisionError` (what plain-float division by zero
  would raise) is representable but unreached in the modelled paths;
* HTTP calls are abstracted: the parsed JSON body the code reads is an input
  of the embedded function (a `GeocodeResponse`, resp. one
  `RouteMatrixResponse` per batch);
* a value that may be Python `None` becomes an `Option`.
-/

namespace DrivingTimeRadius

deriving instance DecidableEq for Except

/-- Python runtime errors the embedded code can raise. -/
inductive PyErr where
  | zeroDivision
  | indexError
  | typeError
  | valueError
  | overflowError
deriving DecidableEq, Repr

/-- A boundary polygon (shapely geometry); the code only carries it around,
so the ring data is an uninterpreted payload. -/
structure Geometry where
  ring : List (ℚ × ℚ)
deriving DecidableEq, Repr

/-- One row of the zip-code GeoDataFrame (`self.zip_gdf`): the `ZCTA5`
identifier and the boundary geometry. -/
structure AreaRecord where
  zcta5 : String
  geometry : Geometry
deriving DecidableEq, Repr

/-- One dict appended to `results` in `calculate_driving_times`:
`{'zip_code': ..., 'state': ..., 'driving_time_minutes': ..., 'geometry': ...}`. -/
structure TravelResult where
  zip_code : String
  state : String
  driving_time_minutes : ℚ
  geometry : Geometry
deriving DecidableEq, Repr

/-- Embeds `filter_results(self, driving_results, max_time,
respect_state_lines, origin_state)` (lines 145-152): keep rows with
`driving_time_minutes <= max_time`, then, if `respect_state_lines`, keep rows
with `state == origin_state`.  `origin_state` comes from `geocode_address` and
may be Python `None`, so it is an `Option String` here; the pandas comparison
`'VA' == None` is `False`, which `some r.state = none` matches. -/
def filter_results (driving_results : List TravelResult) (max_time : ℚ)
    (respect_state_lines : Bool) (origin_state : Option String) :
    List TravelResult :=
  let filtered := driving_results.filter
    (fun r => decide (r.driving_time_minutes ≤ max_time))
  if respect_state_lines then
    filtered.filter (fun r => decide (some r.state = origin_state))
  else
    filtered

/-- The 22201/VA row of the worked example in the spec. -/
def exVA : TravelResult := ⟨"22201", "VA", 15, ⟨[]⟩⟩

/-- The 20001/DC row of the worked example in the spec. -/
def exDC : TravelResult := ⟨"20001", "DC", 50, ⟨[(1, 1)]⟩⟩

/-- C1: `filter_results` returns exactly the rows satisfying
`driving_time_minutes ≤ max_time` and, when `respect_state_lines` is set,
`state == origin_state`; and on the spec's worked example
(`[22201/VA/15, 20001/DC/50]`, `max_time = 30`, `respect_state_lines := true`,
`origin_state = "VA"`) the result is exactly the single 22201 row. -/
theorem filter_results_correct :
    (∀ (results : List TravelResult) (max_time : ℚ) (respect_state_lines : Bool)
        (origin_state : Option String) (r : TravelResult),
      r ∈ filter_results results max_time respect_state_lines origin_state ↔
        r ∈ results ∧ r.driving_time_minutes ≤ max_time ∧
          (respect_state_lines = false ∨ some r.state = origin_state)) ∧
    filter_results [exVA, exDC] 30 true (some "VA") = [exVA] := by
  constructor
  · intro results max_time rsl os r
    unfold filter_results
    cases rsl
    · simp [List.mem_filter]
    · simp [List.mem_filter]
      tauto
  · decide

/-- Witness for C1 instantiating the membership characterization at the
22201/VA row of the worked example. -/
theorem filter_results_correct_witness :
    exVA ∈ filter_results [exVA, exDC] 30 true (some "VA") ↔
      exVA ∈ [exVA, exDC] ∧ exVA.driving_time_minutes ≤ 30 ∧
        (true = false ∨ some exVA.state = some "VA") :=
  filter_results_correct.1 [exVA, exDC] 30 true (some "VA") exVA

/-- C9: filtering never mutates its input (the embedded function is pure and
pandas boolean indexing builds new frames); the returned rows are a sublist of
the raw rows, hence a subset of them. -/
theorem filter_results_no_mutation :
    ∀ (results : List TravelResult) (max_time : ℚ) (respect_state_lines : Bool)
      (origin_state : Option String),
      (filter_results results max_time respect_state_lines origin_state).Sublist
          results ∧
      ∀ r ∈ filter_results results max_time respect_state_lines origin_state,
        r ∈ results := by
  intro results max_time rsl os
  have hsub :
      (filter_results results max_time rsl os).Sublist results := by
    unfold filter_results
    cases rsl
    · simp only [if_neg Bool.false_ne_true]
      exact List.filter_sublist results
    · simp only [if_pos]
      exact (List.filter_sublist _).trans (List.filter_sublist results)
  exact ⟨hsub, fun r hr => hsub.mem hr⟩

/-- Witness for C9 on the worked example's raw rows. -/
theorem filter_results_no_mutation_witness :
    (filter_results [exVA, exDC] 30 true (some "VA")).Sublist [exVA, exDC] ∧
    exVA ∈ [exVA, exDC] :=
  ⟨(filter_results_no_mutation [exVA, exDC] 30 true (some "VA")).1,
   (filter_results_no_mutation [exVA, exDC] 30 true (some "VA")).2 exVA
     (by decide)⟩

/-- Python `int()` on a float: truncation toward zero. -/
def pyTrunc (q : ℚ) : ℤ :=
  if q < 0 then ⌈q⌉ else ⌊q⌋

theorem pyTrunc_mono {a b : ℚ} (h : a ≤ b) : pyTrunc a ≤ pyTrunc b := by
  unfold pyTrunc
  by_cases ha : a < 0 <;> by_cases hb : b < 0 <;> simp only [ha, hb, if_true,
    if_false, ite_true, ite_false]
  · exact Int.ceil_mono h
  · exact le_trans (Int.ceil_le.mpr (by exact_mod_cast ha.le))
      (Int.le_floor.mpr (by exact_mod_cast not_lt.mp hb))
  · exact absurd (lt_of_le_of_lt h hb) ha
  · exact Int.floor_mono h

/-- Embeds `get_color_for_time(self, time, max_time)` (lines 192-199):
`ratio = time / max_time; r = min(255, int(255 * ratio));
g = min(255, int(255 * (1 - ratio))); b = 0`.  In the function's one call
path (`create_map`), `time` is a Series subscript and `max_time` is
`Series.max()`, both numpy float64 scalars, so division by zero does not
raise: `0.0 / 0.0` is NaN and `x / 0.0` for `x != 0` is a signed infinity,
each with only a runtime warning; the crash comes from the subsequent
`int(...)`, which raises `ValueError` on NaN and `OverflowError` on an
infinity.  The source formats the channels as the hex string `#rrggbb`; the
channel triple `(r, g, b)` is modelled. -/
def get_color_for_time (time max_time : ℚ) : Except PyErr (ℤ × ℤ × ℤ) :=
  if max_time = 0 then
    if time = 0 then .error .valueError else .error .overflowError
  else
    let ratio := time / max_time
    let r := min 255 (pyTrunc (255 * ratio))
    let g := min 255 (pyTrunc (255 * (1 - ratio)))
    .ok (r, g, 0)

/-- C7: for positive `max_time` and durations `d1 < d2`, both at most
`max_time`, the red channel is monotone nondecreasing, the green channel
monotone nonincreasing, and the blue channel is zero for both. -/
theorem get_color_for_time_monotone (max_time d1 d2 : ℚ) (hm : 0 < max_time)
    (h12 : d1 < d2) (h1 : d1 ≤ max_time) (h2 : d2 ≤ max_time) :
    ∃ r1 g1 r2 g2 : ℤ,
      get_color_for_time d1 max_time = .ok (r1, g1, 0) ∧
      get_color_for_time d2 max_time = .ok (r2, g2, 0) ∧
      r1 ≤ r2 ∧ g2 ≤ g1 := by
  have hmne : max_time ≠ 0 := ne_of_gt hm
  have hdiv : d1 / max_time ≤ d2 / max_time :=
    (div_le_div_iff_of_pos_right hm).mpr h12.le
  refine ⟨min 255 (pyTrunc (255 * (d1 / max_time))),
    min 255 (pyTrunc (255 * (1 - d1 / max_time))),
    min 255 (pyTrunc (255 * (d2 / max_time))),
    min 255 (pyTrunc (255 * (1 - d2 / max_time))), ?_, ?_, ?_, ?_⟩
  · simp [get_color_for_time, hmne]
  · simp [get_color_for_time, hmne]
  · exact min_le_min le_rfl (pyTrunc_mono (by linarith))
  · exact min_le_min le_rfl (pyTrunc_mono (by linarith))

/-- Witness for C7 at `max_time = 30`, `d1 = 10`, `d2 = 20`. -/
theorem get_color_for_time_monotone_witness :
    ∃ r1 g1 r2 g2 : ℤ,
      get_color_for_time 10 30 = .ok (r1, g1, 0) ∧
      get_color_for_time 20 30 = .ok (r2, g2, 0) ∧
      r1 ≤ r2 ∧ g2 ≤ g1 :=
  get_color_for_time_monotone 30 10 20 (by norm_num) (by norm_num)
    (by norm_num) (by norm_num)

/-- One entry of `address_components` in the geocoding response. -/
structure AddressComponent where
  types : List String
  short_name : String
deriving DecidableEq, Repr

/-- One candidate in the geocoding response's `results` list; the code reads
`geometry.location` (a lat/lng pair) and `address_components`. -/
structure GeocodeResult where
  location : ℚ × ℚ
  address_components : List AddressComponent
deriving DecidableEq, Repr

/-- The parsed JSON body of the geocoding HTTP response: a `status` string and
a `results` list. -/
structure GeocodeResponse where
  status : String
  results : List GeocodeResult
deriving DecidableEq, Repr

/-- Embeds `geocode_address(self, address)` (lines 51-71), with the HTTP
exchange
abstracted into the parsed response `data`.  On `status != 'OK'` it returns
`(None, None)`; otherwise it subscripts `data['results'][0]` — an
`IndexError` when the list is empty — and scans `address_components` for the
first one whose `types` contain `'administrative_area_level_1'`, whose
`short_name` is the state (Python `None` when no component matches). -/
def geocode_address (data : GeocodeResponse) :
    Except PyErr (Option (ℚ × ℚ) × Option String) :=
  if data.status ≠ "OK" then
    .ok (none, none)
  else
    match data.results with
    | [] => .error .indexError
    | res :: _ =>
      let state := (res.address_components.find?
        (fun c => c.types.contains "administrative_area_level_1")).map
          AddressComponent.short_name
      .ok (some res.location, state)

/-- C3 counterexample: on a response with success status `'OK'` and an empty
`results` list, `geocode_address` raises an `IndexError` at
`data['results'][0]` instead of returning its `(None, None)` failure
signal. -/
theorem geocode_address_empty_results_raises :
    geocode_address ⟨"OK", []⟩ ≠ .ok (none, none) ∧
    geocode_address ⟨"OK", []⟩ = .error .indexError := by
  constructor
  · decide
  · decide

/-- C3 amended: `geocode_address` returns the `(None, None)` failure signal
(without raising) exactly when the provider reports a non-success status; when
the status is a success but the `results` list is empty it raises an
`IndexError` rather than returning a failure signal; and on a success status
with at least one candidate it returns that candidate's coordinate pair and
state code. -/
theorem geocode_address_spec (data : GeocodeResponse) :
    (data.status ≠ "OK" → geocode_address data = .ok (none, none)) ∧
    (data.status = "OK" → data.results = [] →
      geocode_address data = .error .indexError) ∧
    (data.status = "OK" → data.results ≠ [] →
      ∃ coords st, geocode_address data = .ok (some coords, st)) := by
  refine ⟨fun h => ?_, fun h he => ?_, fun h hne => ?_⟩
  · simp [geocode_address, h]
  · simp [geocode_address, h, he]
  · match hr : data.results with
    | [] => exact absurd hr hne
    | res :: rest =>
      refine ⟨res.location, (res.address_components.find?
        (fun c => c.types.contains "administrative_area_level_1")).map
          AddressComponent.short_name, ?_⟩
      simp [geocode_address, h, hr]

/-- Witness for C3's amended claim: a non-success status yields the failure
signal, and a success status with one candidate yields its location. -/
theorem geocode_address_spec_witness :
    geocode_address ⟨"ZERO_RESULTS", []⟩ = .ok (none, none) ∧
    (∃ coords st,
      geocode_address ⟨"OK", [⟨(1, 2), []⟩]⟩ = .ok (some coords, st)) :=
  ⟨(geocode_address_spec ⟨"ZERO_RESULTS", []⟩).1 (by decide),
   (geocode_address_spec ⟨"OK", [⟨(1, 2), []⟩]⟩).2.2 (by decide) (by decide)⟩

/-- The constant `batch_size = 25` (line 81): the per-request destination
cap. -/
def batch_size : Nat := 25

/-- The batch slicing of `calculate_driving_times` (lines 87-88):
`for i in range(0, len(sample_zips), batch_size):
batch = sample_zips.iloc[i:i+batch_size]`, i.e. consecutive slices of
`batch_size` rows, the last one shorter when the length is not a multiple. -/
def batches (sample_zips : List α) : List (List α) :=
  if sample_zips.length = 0 then []
  else sample_zips.take batch_size :: batches (sample_zips.drop batch_size)
termination_by sample_zips.length
decreasing_by
  rename_i h
  rw [List.length_drop]
  exact Nat.sub_lt (Nat.pos_of_ne_zero h) (by decide)

theorem batches_nil : batches ([] : List α) = [] := by
  rw [batches]
  simp

theorem batches_cons (l : List α) (h : l ≠ []) :
    batches l = l.take batch_size :: batches (l.drop batch_size) := by
  rw [batches]
  simp [List.length_eq_zero, h]

theorem batches_eq_nil_iff (l : List α) : batches l = [] ↔ l = [] := by
  constructor
  · intro h
    by_contra hne
    rw [batches_cons l hne] at h
    exact List.cons_ne_nil _ _ h
  · intro h
    rw [h, batches_nil]

theorem batches_flatten (l : List α) : (batches l).flatten = l := by
  by_cases h : l = []
  · rw [h, batches_nil]
    rfl
  · rw [batches_cons l h]
    rw [List.flatten_cons, batches_flatten (l.drop batch_size)]
    exact List.take_append_drop batch_size l
termination_by l.length
decreasing_by
  rw [List.length_drop]
  exact Nat.sub_lt (List.length_pos.mpr h) (by decide)

theorem batches_dropLast_length (l : List α) :
    ∀ b ∈ (batches l).dropLast, b.length = batch_size := by
  intro b hb
  by_cases h : l = []
  · rw [h, batches_nil] at hb
    simp at hb
  · rw [batches_cons l h] at hb
    by_cases h2 : batches (l.drop batch_size) = []
    · rw [h2] at hb
      simp at hb
    · rw [List.dropLast_cons_of_ne_nil h2] at hb
      rcases List.mem_cons.mp hb with rfl | hb2
      · have hd : l.drop batch_size ≠ [] :=
          fun hh => h2 (by rw [hh, batches_nil])
        have hlen : batch_size < l.length := by
          by_contra hle
          exact hd (List.drop_eq_nil_of_le (not_lt.mp hle))
        rw [List.length_take]
        omega
      · exact batches_dropLast_length (l.drop batch_size) b hb2
termination_by l.length
decreasing_by
  rw [List.length_drop]
  exact Nat.sub_lt (List.length_pos.mpr h) (by decide)

theorem batches_length_bounds (l : List α) :
    ∀ b ∈ batches l, 0 < b.length ∧ b.length ≤ batch_size := by
  intro b hb
  by_cases h : l = []
  · rw [h, batches_nil] at hb
    simp at hb
  · rw [batches_cons l h] at hb
    rcases List.mem_cons.mp hb with rfl | hb2
    · rw [List.length_take]
      have : 0 < l.length := List.length_pos.mpr h
      constructor
      · have : 0 < batch_size := by decide
        omega
      · omega
    · exact batches_length_bounds (l.drop batch_size) b hb2
termination_by l.length
decreasing_by
  rw [List.length_drop]
  exact Nat.sub_lt (List.length_pos.mpr h) (by decide)

/-- A fixed area record used for concrete batching instances. -/
def z0 : AreaRecord := ⟨"00000", ⟨[]⟩⟩

theorem batches_replicate60 :
    batches (List.replicate 60 z0) =
      [List.replicate 25 z0, List.replicate 25 z0, List.replicate 10 z0] := by
  rw [batches_cons _ (by decide)]
  rw [show (List.replicate 60 z0).drop batch_size = List.replicate 35 z0
    from by decide]
  rw [batches_cons _ (by decide)]
  rw [show (List.replicate 35 z0).drop batch_size = List.replicate 10 z0
    from by decide]
  rw [batches_cons _ (by decide)]
  rw [show (List.replicate 10 z0).drop batch_size = ([] : List AreaRecord)
    from by decide]
  rw [batches_nil]
  decide

/-- C8: the batching loop of `calculate_driving_times` partitions the sampled
records into consecutive groups: their concatenation is the sample (every
record exactly once, no duplicates), every non-final group has exactly
`batch_size = 25` records, every group is non-empty with at most 25 records,
and 60 records yield 3 batches of sizes 25, 25, 10. -/
theorem batches_partition :
    (∀ sample : List AreaRecord, (batches sample).flatten = sample) ∧
    (∀ sample : List AreaRecord, ∀ b ∈ (batches sample).dropLast,
      b.length = batch_size) ∧
    (∀ sample : List AreaRecord, ∀ b ∈ batches sample,
      0 < b.length ∧ b.length ≤ batch_size) ∧
    (batches (List.replicate 60 z0)).map List.length = [25, 25, 10] :=
  ⟨fun sample => batches_flatten sample,
   fun sample => batches_dropLast_length sample,
   fun sample => batches_length_bounds sample,
   by rw [batches_replicate60]; decide⟩

/-- Witness for C8 on the 60-record sample: the concatenation property, and
the group-size properties applied to the first batch. -/
theorem batches_partition_witness :
    (batches (List.replicate 60 z0)).flatten = List.replicate 60 z0 ∧
    (List.replicate 25 z0).length = batch_size ∧
    (0 < (List.replicate 25 z0).length ∧
      (List.replicate 25 z0).length ≤ batch_size) :=
  ⟨batches_partition.1 _,
   batches_partition.2.1 (List.replicate 60 z0) (List.replicate 25 z0)
     (by rw [batches_replicate60]; decide),
   batches_partition.2.2.1 (List.replicate 60 z0) (List.replicate 25 z0)
     (by rw [batches_replicate60]; decide)⟩

/-- One entry of `elements` in a distance-matrix row: the code only tests
`'duration' in route` and reads `route['duration']['seconds']`. -/
structure RouteElement where
  duration : Option Nat
deriving DecidableEq, Repr

/-- One entry of `rows` in the distance-matrix response: the code only tests
`'elements' in element` and iterates over it. -/
structure MatrixRow where
  elements : Option (List RouteElement)
deriving DecidableEq, Repr

/-- The parsed body the batch loop reads after its second request (the code
issues a POST and then overwrites `data` with the body of a GET to the same
URL; only that final body is read, so it is the model's input): a `status`
string, and a `rows` list when present. -/
structure RouteMatrixResponse where
  status : String
  rows : Option (List MatrixRow)
deriving DecidableEq, Repr

/-- The body of the innermost loop of `calculate_driving_times`
(lines 132-143): for element index `j`, skip the element when it has no
`duration`; otherwise subscript `batch.iloc[j]` (an `IndexError` when the
provider returns more elements than the batch has rows) and append the result
dict, with `state` hard-coded to `"VA"` and the duration converted from
seconds to minutes. -/
def process_element (batch : List AreaRecord) (acc : List TravelResult)
    (j : Nat) (route : RouteElement) : Except PyErr (List TravelResult) :=
  match route.duration with
  | none => .ok acc
  | some secs =>
    match batch.get? j with
    | none => .error .indexError
    | some rec =>
      .ok (acc ++ [⟨rec.zcta5, "VA", (secs : ℚ) / 60, rec.geometry⟩])

/-- One iteration of the batch loop of `calculate_driving_times`
(lines 124-143): on `status != 'OK'` the batch is skipped (`continue`);
otherwise, when `rows` is present, every row's `elements` (when present) is
folded through `process_element`. -/
def process_batch (batch : List AreaRecord) (data : RouteMatrixResponse)
    (acc : List TravelResult) : Except PyErr (List TravelResult) :=
  if data.status ≠ "OK" then
    .ok acc
  else
    match data.rows with
    | none => .ok acc
    | some rows =>
      rows.foldlM (fun acc row =>
        match row.elements with
        | none => .ok acc
        | some elems =>
          elems.enum.foldlM
            (fun acc je => process_element batch acc je.1 je.2) acc) acc

/-- The final value of the local variable `results` in
`calculate_driving_times` (lines 80-143): the batch loop folded over the
batch slices, with `responses i` the parsed body read for batch `i`. -/
def driving_results_internal (sample_zips : List AreaRecord)
    (responses : Nat → RouteMatrixResponse) :
    Except PyErr (List TravelResult) :=
  (batches sample_zips).enum.foldlM
    (fun acc ib => process_batch ib.2 (responses ib.1) acc) []

/-- Embeds `calculate_driving_times(self, origin_coords, sample_zips)`
(lines 73-143): the loop fills the local `results` list, but the function
body ends without any `return` statement, so the Python function returns
`None` whenever the loop finishes without raising.  `origin_coords` is only
used to build the HTTP request, which is abstracted into `responses`. -/
def calculate_driving_times (origin_coords : ℚ × ℚ)
    (sample_zips : List AreaRecord)
    (responses : Nat → RouteMatrixResponse) :
    Except PyErr (Option (List TravelResult)) := do
  let _results ← driving_results_internal sample_zips responses
  pure none

/-- A distance-matrix response carrying one 900-second (15-minute) duration
for the first destination of every batch. -/
def respOne : Nat → RouteMatrixResponse :=
  fun _ => ⟨"OK", some [⟨some [⟨some 900⟩]⟩]⟩

/-- C2 evidence: on a one-record sample whose provider response carries a
duration, the loop's `results` list holds the aligned travel result, yet
`calculate_driving_times` returns `None` (Python: no `return` statement), not
the collection of travel results the claim describes. -/
theorem calculate_driving_times_returns_none :
    driving_results_internal [z0] respOne =
      .ok [⟨"00000", "VA", 15, ⟨[]⟩⟩] ∧
    calculate_driving_times (0, 0) [z0] respOne = .ok none := by
  have hb : batches [z0] = [[z0]] := by
    rw [batches_cons _ (by decide)]
    rw [show List.drop batch_size [z0] = ([] : List AreaRecord) from by decide]
    rw [batches_nil]
    decide
  have hd : driving_results_internal [z0] respOne =
      .ok [⟨"00000", "VA", 15, ⟨[]⟩⟩] := by
    rw [driving_results_internal, hb]
    simp [List.foldlM, process_batch, process_element, respOne, z0]
    norm_num
  refine ⟨hd, ?_⟩
  rw [calculate_driving_times, hd]
  rfl

/-- One `folium.GeoJson` region overlay added to the map: the row's geometry
and the fill color channels from `get_color_for_time` (the tooltip text and
the fixed stroke styling are presentation-only and not modelled). -/
structure Overlay where
  geometry : Geometry
  fillColor : ℤ × ℤ × ℤ
deriving DecidableEq, Repr

/-- The folium map document `create_map` builds and saves: its center, its
markers, its region overlays, and the file name it is saved under. -/
structure FMap where
  center : ℚ × ℚ
  markers : List (ℚ × ℚ)
  overlays : List Overlay
  savedAs : String
deriving DecidableEq, Repr

/-- Embeds `gdf['driving_time_minutes'].max()` (line 171): the maximum of a
pandas
series, only evaluated on a non-empty frame (the `[]` case is never reached
under the `len > 0` guard in `create_map`). -/
def series_max : List ℚ → ℚ
  | [] => 0
  | x :: xs => xs.foldl max x

/-- Embeds `create_map(self, filtered_results, origin_coords)`
(lines 154-190):
build a map centered at the origin, add the origin marker, and when the
filtered set is non-empty add one colored polygon per row, colored by
`get_color_for_time` against the set's maximum driving time; finally save the
document as `driving_time_radius.html` and return that name. -/
def create_map (filtered_results : List TravelResult)
    (origin_coords : ℚ × ℚ) : Except PyErr FMap := do
  let base : FMap :=
    { center := origin_coords
      markers := [origin_coords]
      overlays := []
      savedAs := "driving_time_radius.html" }
  if 0 < filtered_results.length then
    let max_time := series_max
      (filtered_results.map TravelResult.driving_time_minutes)
    let overlays ← filtered_results.mapM (fun row => do
      let color ← get_color_for_time row.driving_time_minutes max_time
      pure (⟨row.geometry, color⟩ : Overlay))
    pure { base with overlays := overlays }
  else
    pure base

/-- C6: on an empty filtered set, `create_map` produces a map with exactly one
marker — the origin — and zero region overlays. -/
theorem create_map_empty :
    ∀ origin_coords : ℚ × ℚ,
      ∃ m : FMap, create_map [] origin_coords = .ok m ∧
        m.markers = [origin_coords] ∧ m.overlays = [] := by
  intro origin_coords
  exact ⟨_, rfl, rfl, rfl⟩

theorem series_max_all_zero (l : List ℚ) (h : ∀ x ∈ l, x = 0) :
    series_max l = 0 := by
  match l with
  | [] => rfl
  | x :: xs =>
    have hx : x = 0 := h x (List.mem_cons_self x xs)
    have haux : ∀ ys : List ℚ, (∀ y ∈ ys, y = 0) →
        ys.foldl max (0 : ℚ) = 0 := by
      intro ys
      induction ys with
      | nil => intro _; rfl
      | cons y ys ih =>
        intro hys
        have hy : y = 0 := hys y (List.mem_cons_self y ys)
        rw [List.foldl_cons, hy, max_self]
        exact ih (fun z hz => hys z (List.mem_cons_of_mem y hz))
    show xs.foldl max x = 0
    rw [hx]
    exact haux xs (fun z hz => h z (List.mem_cons_of_mem x hz))

/-- C10 counterexample: on a one-row filtered set whose driving time is
zero, `create_map` does not raise `ZeroDivisionError`: the numpy float64
division `0.0 / 0.0` silently yields NaN, and the run instead fails with a
`ValueError` at the later `int(255 * nan)`. -/
theorem create_map_zero_not_zerodivision :
    create_map [⟨"22201", "VA", 0, ⟨[]⟩⟩] (0, 0) ≠ .error .zeroDivision ∧
    create_map [⟨"22201", "VA", 0, ⟨[]⟩⟩] (0, 0) = .error .valueError := by
  constructor
  · decide
  · decide

/-- C10 amended: on a non-empty filtered set in which every driving time is
zero, the series maximum is zero and `get_color_for_time` divides by it with
no zero guard; but since both operands are numpy float64 scalars the
division `0.0 / 0.0` yields NaN without raising, and `create_map` raises a
`ValueError` when `int()` is applied to `255 * NaN` — a NaN-to-integer
conversion error, not a division-by-zero error. -/
theorem create_map_zero_nan_valueerror (filtered : List TravelResult)
    (origin_coords : ℚ × ℚ) (hne : filtered ≠ [])
    (hz : ∀ r ∈ filtered, r.driving_time_minutes = 0) :
    create_map filtered origin_coords = .error .valueError := by
  match filtered with
  | [] => exact absurd rfl hne
  | r :: rest =>
    have hmax : series_max
        ((r :: rest).map TravelResult.driving_time_minutes) = 0 := by
      apply series_max_all_zero
      intro x hx
      rcases List.mem_map.mp hx with ⟨s, hs, rfl⟩
      exact hz s hs
    have hr : r.driving_time_minutes = 0 :=
      hz r (List.mem_cons_self r rest)
    rw [create_map]
    simp only [List.length_cons, Nat.zero_lt_succ, if_pos, hmax]
    rw [List.mapM_cons]
    simp only [get_color_for_time, hr, hmax, if_pos rfl]
    rfl

/-- Witness for C10's amended claim at a one-row filtered set with duration
zero. -/
theorem create_map_zero_nan_valueerror_witness :
    create_map [⟨"22201", "VA", 0, ⟨[]⟩⟩] (0, 0) = .error .valueError :=
  create_map_zero_nan_valueerror [⟨"22201", "VA", 0, ⟨[]⟩⟩] (0, 0)
    (by decide) (by decide)

/-- One row of the exported CSV: every `TravelResult` field except the
dropped `geometry` column. -/
structure ExportRow where
  zip_code : String
  state : String
  driving_time_minutes : ℚ
deriving DecidableEq, Repr

/-- Embeds `export_results(self, filtered_results, filename)`
(lines 201-209): when
the filtered set is non-empty, write a CSV of the rows with the `geometry`
column dropped and return the file name; otherwise return `None` and write
nothing. -/
def export_results (filtered_results : List TravelResult)
    (filename : String := "zip_codes_in_range.csv") :
    Option (String × List ExportRow) :=
  if 0 < filtered_results.length then
    some (filename, filtered_results.map
      (fun r => ⟨r.zip_code, r.state, r.driving_time_minutes⟩))
  else
    none

/-- C5: exporting an empty filtered set produces no file; exporting a
non-empty set produces a file with exactly one row per result, each holding
every field except the geometry column. -/
theorem export_results_spec (filtered : List TravelResult) :
    (filtered = [] → export_results filtered = none) ∧
    (filtered ≠ [] →
      export_results filtered = some ("zip_codes_in_range.csv",
        filtered.map
          (fun r => ⟨r.zip_code, r.state, r.driving_time_minutes⟩)) ∧
      ∀ f rows, export_results filtered = some (f, rows) →
        rows.length = filtered.length) := by
  constructor
  · intro h
    rw [h]
    rfl
  · intro hne
    have hlen : 0 < filtered.length := List.length_pos.mpr hne
    constructor
    · rw [export_results]
      simp [hlen]
    · intro f rows hrows
      rw [export_results] at hrows
      simp only [if_pos hlen, Option.some.injEq] at hrows
      injection hrows with h1 h2
      subst h2
      simp

/-- Witness for C5 at the empty set and at a one-row set. -/
theorem export_results_spec_witness :
    export_results [] = none ∧
    export_results [exVA] = some ("zip_codes_in_range.csv",
      [⟨"22201", "VA", 15⟩]) :=
  ⟨(export_results_spec []).1 rfl,
   ((export_results_spec [exVA]).2 (by decide)).1⟩

/-- The observable outcome of one `run_calculation`: the returned status
string and the names of the files the run wrote (the HTML map from
`create_map` and the CSV from `export_results`). -/
structure RunOutput where
  message : String
  files_written : List String
deriving DecidableEq, Repr

/-- Embeds `run_calculation(self, address, max_time, respect_state)`
(lines 211-240), with the network abstracted into the geocoding response
`geo` and the per-batch matrix responses, and the random zip sample
(`self.zip_gdf.sample(...)`) supplied as `sample_zips`.  When
`geocode_address` returns its `(None, None)` failure signal the run returns
the failure message at once, before `create_map` or `export_results` can
write anything.  Otherwise `calculate_driving_times` returns `None` (it has
no `return` statement) and `filter_results` subscripting `None` raises a
`TypeError`. -/
def run_calculation (geo : GeocodeResponse)
    (matrix_responses : Nat → RouteMatrixResponse)
    (sample_zips : List AreaRecord) (max_time : ℚ) (respect_state : Bool) :
    Except PyErr RunOutput := do
  let g ← geocode_address geo
  match g with
  | (none, _) => pure ⟨"Geocoding failed. Please check the address.", []⟩
  | (some origin_coords, origin_state) => do
    let driving_results ←
      calculate_driving_times origin_coords sample_zips matrix_responses
    match driving_results with
    | none => Except.error PyErr.typeError
    | some dr =>
      let filtered := filter_results dr max_time respect_state origin_state
      let m ← create_map filtered origin_coords
      let csv := export_results filtered
      let files := m.savedAs :: (match csv with
        | some (f, _) => [f]
        | none => [])
      pure ⟨"Analysis complete. Found " ++ toString filtered.length ++
        " zip codes within " ++ toString max_time ++ " minutes.", files⟩

/-- C4: when geocoding fails (the geocoder returns its `(None, None)` failure
signal), the run returns the human-readable failure message and writes no
file: neither the HTML map nor the CSV export. -/
theorem run_calculation_geocode_failure (geo : GeocodeResponse)
    (matrix_responses : Nat → RouteMatrixResponse)
    (sample_zips : List AreaRecord) (max_time : ℚ) (respect_state : Bool)
    (h : geocode_address geo = .ok (none, none)) :
    run_calculation geo matrix_responses sample_zips max_time respect_state =
      .ok ⟨"Geocoding failed. Please check the address.", []⟩ := by
  rw [run_calculation, h]
  rfl

/-- Witness for C4 on a concrete denied geocoding response. -/
theorem run_calculation_geocode_failure_witness :
    run_calculation ⟨"REQUEST_DENIED", []⟩ respOne [z0] 30 true =
      .ok ⟨"Geocoding failed. Please check the address.", []⟩ :=
  run_calculation_geocode_failure ⟨"REQUEST_DENIED", []⟩ respOne [z0] 30 true
    (by decide)

end DrivingTimeRadius
